import Mathlib

/-!
Shallow embedding of the banana-sprite repository's audio-to-viseme pipeline.

The audio analyzer (`analyzeAudioBuffer` in src/utils/audioAnalysis.ts), the
mouth-state smoother and video-generation guard (`FaceAnimator`), the frame
resolution table (`resolvedSelection` / `resolveFrameIndex` and
`createInitialSelection`), the face-part rectangle editor's drag step
(`FacePartEditor.handleMouseMove`), the response extraction of
`analyzeSpriteSheet` (src/services/geminiService.ts) and the heuristic
`findBestExpressionFrames` (src/utils/facePartExtractor-style module) are
translated into executable Lean definitions over exact rational arithmetic.

JavaScript numbers are modelled as `Option ℚ`, where `none` stands for `NaN`
(which in this code can only arise from the `0/0` inside the RMS of an empty
sample window).  `Math.sqrt` is kept abstract as a function parameter
`sqrtFn : ℚ → ℚ`; every theorem below holds for an arbitrary such function,
so nothing depends on properties of the real square root.
-/

namespace BananaSprite

/-- A JavaScript number: either a finite value (modelled exactly as a
rational) or `NaN`. -/
def JsNum : Type := Option ℚ

instance : DecidableEq JsNum := by
  unfold JsNum
  infer_instance

/-- The smoothing update `smoothing * 0.7 + rms * 0.3`; `NaN` propagates
through `*` and `+` exactly as in IEEE arithmetic. -/
def jsSmooth (smoothing rms : JsNum) : JsNum :=
  match smoothing, rms with
  | some a, some b => some (a * 0.7 + b * 0.3)
  | _, _ => none

/-- The JavaScript comparison `v > t`: false whenever `v` is `NaN`. -/
def jsGtQ (v : JsNum) (t : ℚ) : Bool :=
  match v with
  | some q => decide (t < q)
  | none => false

/-- The decoded audio signal: `sampleRate` and the first channel's samples
(`audioBuffer.getChannelData(0)`). -/
structure AudioBuffer where
  sampleRate : ℚ
  channelData : List ℚ

/-- `audioBuffer.duration` is the sample count divided by the sample rate. -/
def AudioBuffer.duration (ab : AudioBuffer) : ℚ :=
  (ab.channelData.length : ℚ) / ab.sampleRate

/-- The binary mouth classification stored on each analyzer frame
(`'open' | 'closed'`; `open` is a Lean keyword, hence `opened`). -/
inductive BinaryMouthState where
  | opened
  | closed
deriving DecidableEq, Repr

/-- One output frame of `analyzeAudioBuffer`
(`{ time, volume, mouthState }`). -/
structure VolumeFrame where
  time : ℚ
  volume : JsNum
  mouthState : BinaryMouthState
deriving DecidableEq

/-- All inputs of `analyzeAudioBuffer`, with `Math.sqrt` abstracted. -/
structure AnalyzerParams where
  buffer : AudioBuffer
  fps : ℚ
  threshold : ℚ
  releaseTime : ℚ
  sqrtFn : ℚ → ℚ

/-- `frameInterval = 1 / fps`. -/
def AnalyzerParams.frameInterval (p : AnalyzerParams) : ℚ := 1 / p.fps

/-- `samplesPerFrame = Math.floor(sampleRate * frameInterval)`. -/
def AnalyzerParams.samplesPerFrame (p : AnalyzerParams) : ℕ :=
  ⌊p.buffer.sampleRate * p.frameInterval⌋.toNat

/-- `releaseFrames = Math.ceil(releaseTime * fps)`. -/
def AnalyzerParams.releaseFrames (p : AnalyzerParams) : ℤ :=
  ⌈p.releaseTime * p.fps⌉

/-- The loop bound `Math.ceil(duration * fps)`. -/
def AnalyzerParams.numFrames (p : AnalyzerParams) : ℕ :=
  ⌈p.buffer.duration * p.fps⌉.toNat

/-- The RMS of one analysis window:
`startSample = frameIndex * samplesPerFrame`,
`endSample = min(startSample + samplesPerFrame, channelData.length)`,
`rms = Math.sqrt(sum / count)`.  When the window holds zero samples the
JavaScript code computes `Math.sqrt(0 / 0) = NaN`, modelled as `none`. -/
def AnalyzerParams.frameRms (p : AnalyzerParams) (frameIndex : ℕ) : JsNum :=
  let startSample := frameIndex * p.samplesPerFrame
  let endSample := min (startSample + p.samplesPerFrame) p.buffer.channelData.length
  let window := (p.buffer.channelData.drop startSample).take (endSample - startSample)
  let sum := (window.map (fun s => s * s)).sum
  let count := window.length
  if count = 0 then none else some (p.sqrtFn (sum / (count : ℚ)))

/-- The mutable loop state of `analyzeAudioBuffer`:
`smoothing` (initially `0`), `lastOpenTime` (initially `-1`) and `isOpen`
(initially `false`). -/
structure AnalyzerState where
  smoothing : JsNum
  lastOpenTime : ℤ
  isOpen : Bool

/-- Initial analyzer loop state. -/
def AnalyzerState.init : AnalyzerState := ⟨some 0, -1, false⟩

/-- One iteration of the `analyzeAudioBuffer` loop: compute the window RMS,
update the exponential smoothing, classify the mouth state with the release
window, and emit the frame together with the successor state. -/
def analyzerStep (p : AnalyzerParams) (s : AnalyzerState) (frameIndex : ℕ) :
    VolumeFrame × AnalyzerState :=
  let time : ℚ := (frameIndex : ℚ) * p.frameInterval
  let smoothing := jsSmooth s.smoothing (p.frameRms frameIndex)
  let smoothedVolume := smoothing
  if jsGtQ smoothedVolume p.threshold then
    (⟨time, smoothedVolume, .opened⟩, ⟨smoothing, (frameIndex : ℤ), true⟩)
  else if s.isOpen && decide ((frameIndex : ℤ) - s.lastOpenTime < p.releaseFrames) then
    (⟨time, smoothedVolume, .opened⟩, ⟨smoothing, s.lastOpenTime, s.isOpen⟩)
  else
    (⟨time, smoothedVolume, .closed⟩, ⟨smoothing, s.lastOpenTime, false⟩)

/-- The loop state entering iteration `frameIndex`. -/
def analyzerStateAt (p : AnalyzerParams) : ℕ → AnalyzerState
  | 0 => .init
  | n + 1 => (analyzerStep p (analyzerStateAt p n) n).2

/-- The frame pushed during iteration `frameIndex`. -/
def analyzerFrameAt (p : AnalyzerParams) (frameIndex : ℕ) : VolumeFrame :=
  (analyzerStep p (analyzerStateAt p frameIndex) frameIndex).1

/-- `analyzeAudioBuffer(audioBuffer, fps, threshold, releaseTime)` from
src/utils/audioAnalysis.ts, with `Math.sqrt` passed in as `sqrtFn`.  The
source's defaults are `fps = 10`, `threshold = 0.01`,
`releaseTime = 0.1`. -/
def analyzeAudioBuffer (audioBuffer : AudioBuffer) (fps threshold releaseTime : ℚ)
    (sqrtFn : ℚ → ℚ) : List VolumeFrame :=
  let p : AnalyzerParams := ⟨audioBuffer, fps, threshold, releaseTime, sqrtFn⟩
  (List.range p.numFrames).map (analyzerFrameAt p)

/-! ### Three-way mouth state and the live smoother (`FaceAnimator`) -/

/-- The three-way `MouthState` from types.ts (`'open' | 'mid' | 'closed'`). -/
inductive MouthState where
  | opened
  | mid
  | closed
deriving DecidableEq, Repr

/-- `EyeState` (`'open' | 'closed'`), owned by the blink scheduler. -/
inductive EyeState where
  | opened
  | closed
deriving DecidableEq, Repr

/-- `smoothTransition(prev, target)` from `FaceAnimator`: the transition
table that forbids a direct jump between `open` and `closed`. -/
def smoothTransition (prev target : MouthState) : MouthState :=
  if prev = .closed ∧ target = .opened then .mid
  else if prev = .opened ∧ target = .closed then .mid
  else if prev = .mid ∧ target = .opened then .opened
  else if prev = .mid ∧ target = .closed then .closed
  else target

/-- The displayed-state trace of iterated `smoothTransition` applications:
the sequence of values taken by `mouthStateRef.current`, starting from
`init`, as the targets arrive. -/
def smoothTrace (init : MouthState) (targets : List MouthState) : List MouthState :=
  targets.scanl smoothTransition init

/-! ### Frame resolution (`resolvedSelection`, `resolveFrameIndex`,
`createInitialSelection`) -/

/-- The recommended-frame part of `SpriteSheetAnalysis`
(src/services/geminiService.ts).  The per-frame `frames` array is not
consumed by the frame-resolution code, so it is not modelled here. -/
structure SpriteSheetAnalysis where
  recommendedEyesOpenFrame : ℤ
  recommendedEyesClosedFrame : ℤ
  recommendedMouthOpenFrame : ℤ
  recommendedMouthClosedFrame : ℤ
deriving DecidableEq, Repr

/-- `ExpressionFrameSelection`: one sprite-frame index per
(eye, mouth) combination.  Fields are `Option ℤ` so that the `?? 0`
fallback in `resolveFrameIndex` stays observable. -/
structure ExpressionFrameSelection where
  eyesOpenMouthOpen : Option ℤ
  eyesOpenMouthMid : Option ℤ
  eyesOpenMouthClosed : Option ℤ
  eyesClosedMouthOpen : Option ℤ
  eyesClosedMouthMid : Option ℤ
  eyesClosedMouthClosed : Option ℤ
deriving DecidableEq, Repr

/-- JavaScript `a || b` on numbers: `0` is falsy, every other number is
truthy and short-circuits. -/
def jsOrInt (a b : ℤ) : ℤ := if a ≠ 0 then a else b

/-- The shared body of `resolvedSelection` (FaceAnimator) and
`createInitialSelection` (FaceAnimationEditor) in the no-user-selection
case: seed all six keys from the analysis recommendations (`?? 0`), with
`mouthMid = mouthOpen` and `eyesClosedMouthClosed = eyesClosed || mouthClosed`. -/
def selectionFromAnalysis (spriteAnalysis : Option SpriteSheetAnalysis) :
    ExpressionFrameSelection :=
  let eyesOpen := match spriteAnalysis with
    | some a => a.recommendedEyesOpenFrame
    | none => 0
  let eyesClosed := match spriteAnalysis with
    | some a => a.recommendedEyesClosedFrame
    | none => 0
  let mouthOpen := match spriteAnalysis with
    | some a => a.recommendedMouthOpenFrame
    | none => 0
  let mouthClosed := match spriteAnalysis with
    | some a => a.recommendedMouthClosedFrame
    | none => 0
  let mouthMid := mouthOpen
  { eyesOpenMouthOpen := some eyesOpen
    eyesOpenMouthMid := some mouthMid
    eyesOpenMouthClosed := some eyesOpen
    eyesClosedMouthOpen := some eyesClosed
    eyesClosedMouthMid := some mouthMid
    eyesClosedMouthClosed := some (jsOrInt eyesClosed mouthClosed) }

/-- The `resolvedSelection` memo in `FaceAnimator`: the user selection if
present, otherwise the analysis-seeded defaults. -/
def resolvedSelection (selectedFrames : Option ExpressionFrameSelection)
    (spriteAnalysis : Option SpriteSheetAnalysis) : ExpressionFrameSelection :=
  match selectedFrames with
  | some sel => sel
  | none => selectionFromAnalysis spriteAnalysis

/-- `createInitialSelection(analysis)` from FaceAnimationEditor.tsx: the
same seeding computation. -/
def createInitialSelection (analysis : Option SpriteSheetAnalysis) :
    ExpressionFrameSelection :=
  selectionFromAnalysis analysis

/-- `resolveFrameIndex(eye, mouth)` from `FaceAnimator`: look the key up in
the resolved selection, with `?? 0` as last fallback. -/
def resolveFrameIndex (sel : ExpressionFrameSelection) (eye : EyeState)
    (mouth : MouthState) : ℤ :=
  (match eye, mouth with
    | .opened, .opened => sel.eyesOpenMouthOpen
    | .opened, .mid => sel.eyesOpenMouthMid
    | .opened, .closed => sel.eyesOpenMouthClosed
    | .closed, .opened => sel.eyesClosedMouthOpen
    | .closed, .mid => sel.eyesClosedMouthMid
    | .closed, .closed => sel.eyesClosedMouthClosed).getD 0

/-- Containment of an optional frame index in `[0, frameCount)`; a missing
value is fine because `resolveFrameIndex` replaces it by `0`. -/
def optIndexInRange (frameCount : ℤ) (v : Option ℤ) : Prop :=
  ∀ i, v = some i → 0 ≤ i ∧ i < frameCount

/-- Every key of a selection holds an index in `[0, frameCount)` (when it
holds one at all). -/
def selectionInRange (frameCount : ℤ) (sel : ExpressionFrameSelection) : Prop :=
  optIndexInRange frameCount sel.eyesOpenMouthOpen
  ∧ optIndexInRange frameCount sel.eyesOpenMouthMid
  ∧ optIndexInRange frameCount sel.eyesOpenMouthClosed
  ∧ optIndexInRange frameCount sel.eyesClosedMouthOpen
  ∧ optIndexInRange frameCount sel.eyesClosedMouthMid
  ∧ optIndexInRange frameCount sel.eyesClosedMouthClosed

/-- All four recommended indices of an analysis lie in `[0, frameCount)`. -/
def analysisInRange (frameCount : ℤ) (a : SpriteSheetAnalysis) : Prop :=
  (0 ≤ a.recommendedEyesOpenFrame ∧ a.recommendedEyesOpenFrame < frameCount)
  ∧ (0 ≤ a.recommendedEyesClosedFrame ∧ a.recommendedEyesClosedFrame < frameCount)
  ∧ (0 ≤ a.recommendedMouthOpenFrame ∧ a.recommendedMouthOpenFrame < frameCount)
  ∧ (0 ≤ a.recommendedMouthClosedFrame ∧ a.recommendedMouthClosedFrame < frameCount)

/-! ### Video-generation trigger guard (`FaceAnimator`'s generation effect) -/

/-- The state read and written by the video-generation effect:
`videoGenerationRef.current` (in-flight flag), whether `generatedVideoUrl`
is non-null, and `lastRegenerateKeyRef.current`. -/
structure VideoGenState where
  videoGeneration : Bool
  generatedVideoUrl : Bool
  lastRegenerateKey : ℤ
deriving DecidableEq, Repr

/-- One invocation of the video-generation effect for a given
`regenerateKey`: skip without audio, skip while a generation is in flight,
skip when a video already exists for an unchanged regenerate key; otherwise
record the key and start a recording attempt (`generateVideo` sets the
in-flight flag).  The returned `Bool` reports whether a recording attempt
was started. -/
def triggerVideoGeneration (hasAudioBuffer : Bool) (s : VideoGenState)
    (regenerateKey : ℤ) : VideoGenState × Bool :=
  if !hasAudioBuffer then (s, false)
  else if s.videoGeneration then (s, false)
  else if s.generatedVideoUrl && decide (s.lastRegenerateKey = regenerateKey) then (s, false)
  else ({ videoGeneration := true
          generatedVideoUrl := s.generatedVideoUrl
          lastRegenerateKey := regenerateKey }, true)

/-- Completion of a recording (`mediaRecorder.onstop`): publish the video
URL and clear the in-flight flag. -/
def completeVideoGeneration (s : VideoGenState) : VideoGenState :=
  { s with videoGeneration := false, generatedVideoUrl := true }

/-! ### Face-part rectangle editor (`FacePartEditor.handleMouseMove`) -/

/-- A normalized face-part rectangle `{x, y, w, h}`. -/
structure FacePartRect where
  x : ℚ
  y : ℚ
  w : ℚ
  h : ℚ
deriving DecidableEq, Repr

/-- The drag handle hit at mouse-down. -/
inductive DragHandle where
  | move
  | nw
  | ne
  | sw
  | se
  | n
  | s
  | e
  | w
deriving DecidableEq, Repr

/-- The invariant claimed for every rect: it stays inside the unit square. -/
def rectInBounds (r : FacePartRect) : Prop :=
  0 ≤ r.x ∧ 0 ≤ r.y ∧ r.x + r.w ≤ 1 ∧ r.y + r.h ≤ 1

instance (r : FacePartRect) : Decidable (rectInBounds r) := by
  unfold rectInBounds
  infer_instance

/-- First resize block of `handleMouseMove`
(`handle === 'nw' || handle === 'n' || handle === 'w'`), acting on the
current rect. -/
def resizeBlockNW (handle : DragHandle) (r : FacePartRect) (dx dy : ℚ) :
    FacePartRect :=
  if handle = .nw ∨ handle = .n ∨ handle = .w then
    let newW := r.w - dx
    let newH := if handle = .nw ∨ handle = .n then r.h - dy else r.h
    if newW > 0.01 ∧ newH > 0.01 then
      { x := if handle = .nw ∨ handle = .w then max 0 (r.x + dx) else r.x
        y := if handle = .nw ∨ handle = .n then max 0 (r.y + dy) else r.y
        w := newW
        h := if handle = .nw ∨ handle = .n then newH else r.h }
    else r
  else r

/-- Second resize block
(`handle === 'ne' || handle === 'n' || handle === 'e'`). -/
def resizeBlockNE (handle : DragHandle) (r : FacePartRect) (dx dy : ℚ) :
    FacePartRect :=
  if handle = .ne ∨ handle = .n ∨ handle = .e then
    let newW := if handle = .ne ∨ handle = .e then r.w + dx else r.w
    let newH := if handle = .ne ∨ handle = .n then r.h - dy else r.h
    if newW > 0.01 ∧ newH > 0.01 then
      { x := r.x
        y := if handle = .ne ∨ handle = .n then max 0 (r.y + dy) else r.y
        w := newW
        h := if handle = .ne ∨ handle = .n then newH else r.h }
    else r
  else r

/-- Third resize block
(`handle === 'sw' || handle === 's' || handle === 'w'`); note that it
assigns both `w` and `h` unconditionally once the size guard passes. -/
def resizeBlockSW (handle : DragHandle) (r : FacePartRect) (dx dy : ℚ) :
    FacePartRect :=
  if handle = .sw ∨ handle = .s ∨ handle = .w then
    let newW := if handle = .sw ∨ handle = .w then r.w - dx else r.w
    let newH := if handle = .sw ∨ handle = .s then r.h + dy else r.h
    if newW > 0.01 ∧ newH > 0.01 then
      { x := if handle = .sw ∨ handle = .w then max 0 (r.x + dx) else r.x
        y := r.y
        w := newW
        h := newH }
    else r
  else r

/-- Fourth resize block
(`handle === 'se' || handle === 's' || handle === 'e'`), the only one that
also checks the right/bottom bounds. -/
def resizeBlockSE (handle : DragHandle) (r : FacePartRect) (dx dy : ℚ) :
    FacePartRect :=
  if handle = .se ∨ handle = .s ∨ handle = .e then
    let newW := if handle = .se ∨ handle = .e then r.w + dx else r.w
    let newH := if handle = .se ∨ handle = .s then r.h + dy else r.h
    if newW > 0.01 ∧ newH > 0.01 ∧ r.x + newW ≤ 1 ∧ r.y + newH ≤ 1 then
      { x := r.x, y := r.y, w := newW, h := newH }
    else r
  else r

/-- One `handleMouseMove` update of the dragged rectangle, as a function of
the handle, the rect captured at mouse-down (`dragging.startRect`) and the
normalized mouse displacement `(dx, dy)`.  The four resize blocks run in
sequence on the mutable current rect, exactly as in the source (an edge
handle such as `w` matches two blocks and has `dx` applied twice). -/
def dragStep (handle : DragHandle) (startRect : FacePartRect) (dx dy : ℚ) :
    FacePartRect :=
  match handle with
  | .move =>
    { startRect with
      x := max 0 (min (1 - startRect.w) (startRect.x + dx))
      y := max 0 (min (1 - startRect.h) (startRect.y + dy)) }
  | _ =>
    resizeBlockSE handle
      (resizeBlockSW handle
        (resizeBlockNE handle
          (resizeBlockNW handle startRect dx dy) dx dy) dx dy) dx dy

/-! ### Response extraction of `analyzeSpriteSheet` (geminiService.ts) -/

/-- One part of the remote response's first candidate (only the `text`
field matters to the extraction loop). -/
structure ResponsePart where
  text : Option String

/-- JavaScript truthiness of `part.text`: absent or empty strings are
falsy. -/
def jsTruthyText : Option String → Bool
  | none => false
  | some t => !(t = "")

/-- The extraction loop of `analyzeSpriteSheet`: the first truthy text part
is parsed (`JSON.parse` is abstracted as `parseFn`, `none` = throws); a
parse failure throws immediately, and exhausting the parts throws the
no-data error.  `Except.error` models a thrown error. -/
def extractAnalysisFromParts (parseFn : String → Option SpriteSheetAnalysis) :
    List ResponsePart → Except String SpriteSheetAnalysis
  | [] => .error "No analysis data in the response."
  | part :: rest =>
    if jsTruthyText part.text then
      match parseFn (part.text.getD "") with
      | some analysis => .ok analysis
      | none => .error "Failed to parse analysis response as JSON"
    else extractAnalysisFromParts parseFn rest

/-- The result of `analyzeSpriteSheet` as a function of the remote
response: `none` models a response with no
`candidates?.[0]?.content?.parts`. -/
def analyzeSpriteSheetResult (parseFn : String → Option SpriteSheetAnalysis)
    (responseParts : Option (List ResponsePart)) :
    Except String SpriteSheetAnalysis :=
  match responseParts with
  | some parts => extractAnalysisFromParts parseFn parts
  | none => .error "No analysis data in the response."

/-! ### Heuristic frame selection (`findBestExpressionFrames`) -/

/-- The four indices returned by `findBestExpressionFrames`. -/
structure BestExpressionFrames where
  eyesOpenFrameIndex : ℕ
  eyesClosedFrameIndex : ℕ
  mouthOpenFrameIndex : ℕ
  mouthClosedFrameIndex : ℕ
deriving DecidableEq, Repr

/-- The scan variables of the `findBestExpressionFrames` loop;
`minMouthOpen` starts at `Infinity`, modelled as `none`. -/
structure MouthScanState where
  maxMouthOpen : ℚ
  minMouthOpen : Option ℚ
  mouthOpenIndex : ℕ
  mouthClosedIndex : ℕ
deriving DecidableEq, Repr

/-- `openness < minMouthOpen` where `minMouthOpen` may be `Infinity`. -/
def ltPossiblyInfinite (q : ℚ) : Option ℚ → Bool
  | none => true
  | some m => decide (q < m)

/-- `findBestExpressionFrames(frames, frameWidth, frameHeight)`: the
per-frame openness score (an async pixel-variance analysis of the mouth
region) is abstracted as `openness : ℕ → ℚ`; the loop tracks the maximal
and minimal scores, and the eye indices are the constants `0` from the
source's return statement. -/
def findBestExpressionFrames (openness : ℕ → ℚ) (frameCount : ℕ) :
    BestExpressionFrames :=
  let final := (List.range frameCount).foldl
    (fun (st : MouthScanState) i =>
      let score := openness i
      let st1 :=
        if decide (st.maxMouthOpen < score) then
          { st with maxMouthOpen := score, mouthOpenIndex := i }
        else st
      if ltPossiblyInfinite score st1.minMouthOpen then
        { st1 with minMouthOpen := some score, mouthClosedIndex := i }
      else st1)
    ⟨0, none, 0, 0⟩
  { eyesOpenFrameIndex := 0
    eyesClosedFrameIndex := 0
    mouthOpenFrameIndex := final.mouthOpenIndex
    mouthClosedFrameIndex := final.mouthClosedIndex }

/-! ### Theorems -/

/-- Smoothing with a `NaN` RMS yields `NaN`. -/
theorem jsSmooth_nan_right (x : JsNum) : jsSmooth x none = none := by
  cases x <;> rfl

/-- The emitted frame's timestamp is `frameIndex * frameInterval` in every
branch of the loop body. -/
theorem analyzerStep_fst_time (p : AnalyzerParams) (s : AnalyzerState) (k : ℕ) :
    ((analyzerStep p s k).1).time = (k : ℚ) * p.frameInterval := by
  simp only [analyzerStep]
  split
  · rfl
  · split <;> rfl

/-- The emitted frame's volume is the updated smoothing value in every
branch of the loop body. -/
theorem analyzerStep_fst_volume (p : AnalyzerParams) (s : AnalyzerState) (k : ℕ) :
    ((analyzerStep p s k).1).volume = jsSmooth s.smoothing (p.frameRms k) := by
  simp only [analyzerStep]
  split
  · rfl
  · split <;> rfl

/-- Unfolding of the loop body when the smoothed volume exceeds the
threshold. -/
theorem analyzerStep_of_gt (p : AnalyzerParams) (s : AnalyzerState) (k : ℕ)
    (h : jsGtQ (jsSmooth s.smoothing (p.frameRms k)) p.threshold = true) :
    analyzerStep p s k
      = (⟨(k : ℚ) * p.frameInterval, jsSmooth s.smoothing (p.frameRms k), .opened⟩,
         ⟨jsSmooth s.smoothing (p.frameRms k), (k : ℤ), true⟩) := by
  simp [analyzerStep, h]

/-- Unfolding of the loop body in the release window: the volume is at or
below the threshold but the mouth stays open. -/
theorem analyzerStep_of_release (p : AnalyzerParams) (s : AnalyzerState) (k : ℕ)
    (hgt : jsGtQ (jsSmooth s.smoothing (p.frameRms k)) p.threshold = false)
    (hopen : s.isOpen = true)
    (hrel : (k : ℤ) - s.lastOpenTime < p.releaseFrames) :
    analyzerStep p s k
      = (⟨(k : ℚ) * p.frameInterval, jsSmooth s.smoothing (p.frameRms k), .opened⟩,
         ⟨jsSmooth s.smoothing (p.frameRms k), s.lastOpenTime, s.isOpen⟩) := by
  simp [analyzerStep, hgt, hopen, hrel]

/-- The produced list has exactly `numFrames` entries. -/
theorem analyzeAudioBuffer_length (ab : AudioBuffer) (fps threshold releaseTime : ℚ)
    (sqrtFn : ℚ → ℚ) :
    (analyzeAudioBuffer ab fps threshold releaseTime sqrtFn).length
      = (⟨ab, fps, threshold, releaseTime, sqrtFn⟩ : AnalyzerParams).numFrames := by
  simp [analyzeAudioBuffer]

/-- The `k`-th produced frame is the frame emitted by loop iteration `k`. -/
theorem analyzeAudioBuffer_get (ab : AudioBuffer) (fps threshold releaseTime : ℚ)
    (sqrtFn : ℚ → ℚ) (k : ℕ)
    (hk : k < (analyzeAudioBuffer ab fps threshold releaseTime sqrtFn).length) :
    (analyzeAudioBuffer ab fps threshold releaseTime sqrtFn).get ⟨k, hk⟩
      = analyzerFrameAt ⟨ab, fps, threshold, releaseTime, sqrtFn⟩ k := by
  simp [analyzeAudioBuffer, List.get_eq_getElem]

/-- Any fold driven by a binary step sees only step-related adjacent pairs
along its `scanl` trace. -/
theorem chain'_scanl {α : Type} (R : α → α → Prop) (f : α → α → α)
    (hf : ∀ b a, R b (f b a)) :
    ∀ (l : List α) (b : α), List.Chain' R (List.scanl f b l) := by
  intro l
  induction l with
  | nil =>
    intro b
    simp
  | cons a t ih =>
    intro b
    rw [List.scanl_cons, List.singleton_append, List.chain'_cons']
    refine ⟨?_, ih (f b a)⟩
    intro y hy
    have hhead : (List.scanl f (f b a) t).head? = some (f b a) := by
      cases t <;> rfl
    rw [hhead] at hy
    cases hy
    exact hf b a

/-- C3: the mouth-state smoother never steps directly between `open` and
`closed`: `smoothTransition` satisfies the four transition-table equations
(closed→open ↦ mid, open→closed ↦ mid, mid→open ↦ open,
mid→closed ↦ closed), from `open` it never yields `closed` and from
`closed` it never yields `open`, and along any iterated application the
displayed trace never has `open` and `closed` adjacent in either order, so
an intermediate `mid` is always observed between them. -/
theorem smoothTransition_no_direct_jump :
    (smoothTransition .closed .opened = .mid)
    ∧ (smoothTransition .opened .closed = .mid)
    ∧ (smoothTransition .mid .opened = .opened)
    ∧ (smoothTransition .mid .closed = .closed)
    ∧ (∀ target, smoothTransition .opened target ≠ .closed)
    ∧ (∀ target, smoothTransition .closed target ≠ .opened)
    ∧ (∀ init targets, List.Chain'
        (fun a b => ¬(a = .opened ∧ b = .closed) ∧ ¬(a = .closed ∧ b = .opened))
        (smoothTrace init targets)) := by
  refine ⟨rfl, rfl, rfl, rfl, ?_, ?_, ?_⟩
  · intro target
    cases target <;> decide
  · intro target
    cases target <;> decide
  · intro init targets
    exact chain'_scanl _ smoothTransition
      (fun b a => by cases b <;> cases a <;> decide) targets init

/-- C5: from a fresh animator state for a new audio source (no video yet,
nothing in flight, `lastRegenerateKeyRef` initialized to any prop value),
triggering video generation with key `k` starts exactly one recording
attempt; a second trigger with the same key — whether the first recording
is still in flight or has already completed — starts nothing and leaves
the state unchanged. -/
theorem triggerVideoGeneration_idempotent (k0 k : ℤ) :
    (triggerVideoGeneration true ⟨false, false, k0⟩ k).2 = true
    ∧ (triggerVideoGeneration true (triggerVideoGeneration true ⟨false, false, k0⟩ k).1 k).2
        = false
    ∧ (triggerVideoGeneration true (triggerVideoGeneration true ⟨false, false, k0⟩ k).1 k).1
        = (triggerVideoGeneration true ⟨false, false, k0⟩ k).1
    ∧ (triggerVideoGeneration true
        (completeVideoGeneration (triggerVideoGeneration true ⟨false, false, k0⟩ k).1) k).2
        = false
    ∧ (triggerVideoGeneration true
        (completeVideoGeneration (triggerVideoGeneration true ⟨false, false, k0⟩ k).1) k).1
        = completeVideoGeneration (triggerVideoGeneration true ⟨false, false, k0⟩ k).1 := by
  simp [triggerVideoGeneration, completeVideoGeneration]

/-- C9: the heuristic `findBestExpressionFrames` returns the constants `0`
for both eye indices, for every openness-score assignment (hence for all
pixel contents) and every frame count; only the two mouth indices are
computed from the scores. -/
theorem findBestExpressionFrames_eyes_constant (openness : ℕ → ℚ) (frameCount : ℕ) :
    (findBestExpressionFrames openness frameCount).eyesOpenFrameIndex = 0
    ∧ (findBestExpressionFrames openness frameCount).eyesClosedFrameIndex = 0 :=
  ⟨rfl, rfl⟩

/-- C10: in the default (no user selection) mapping the
(eyes closed, mouth closed) key is `eyesClosed || mouthClosed`: a
recommended eyes-closed index of exactly `0` with a nonzero mouth-closed
index resolves that combination to the mouth-closed frame, and any nonzero
eyes-closed index resolves it to the eyes-closed frame, both in the
animator's `resolvedSelection` and in the editor's
`createInitialSelection`. -/
theorem eyesClosedMouthClosed_falsy_fallback (a : SpriteSheetAnalysis) :
    (a.recommendedEyesClosedFrame = 0 → a.recommendedMouthClosedFrame ≠ 0 →
      resolveFrameIndex (resolvedSelection none (some a)) .closed .closed
          = a.recommendedMouthClosedFrame
      ∧ resolveFrameIndex (createInitialSelection (some a)) .closed .closed
          = a.recommendedMouthClosedFrame)
    ∧ (a.recommendedEyesClosedFrame ≠ 0 →
      resolveFrameIndex (resolvedSelection none (some a)) .closed .closed
          = a.recommendedEyesClosedFrame
      ∧ resolveFrameIndex (createInitialSelection (some a)) .closed .closed
          = a.recommendedEyesClosedFrame) := by
  constructor
  · intro h0 _
    constructor <;>
      simp [resolveFrameIndex, resolvedSelection, createInitialSelection,
        selectionFromAnalysis, jsOrInt, h0]
  · intro hne
    constructor <;>
      simp [resolveFrameIndex, resolvedSelection, createInitialSelection,
        selectionFromAnalysis, jsOrInt, hne]

/-- C10 witness: with recommendations (eyesOpen 1, eyesClosed 0,
mouthOpen 2, mouthClosed 5) the combination resolves to frame 5; with
eyesClosed 3 it resolves to frame 3. -/
theorem eyesClosedMouthClosed_falsy_fallback_witness :
    resolveFrameIndex (resolvedSelection none (some ⟨1, 0, 2, 5⟩)) .closed .closed = 5
    ∧ resolveFrameIndex (resolvedSelection none (some ⟨1, 3, 2, 5⟩)) .closed .closed = 3 :=
  ⟨((eyesClosedMouthClosed_falsy_fallback ⟨1, 0, 2, 5⟩).1 (by decide) (by decide)).1,
   ((eyesClosedMouthClosed_falsy_fallback ⟨1, 3, 2, 5⟩).2 (by decide)).1⟩

/-- C7 (refuting evaluation): the rect `{x: 0.3, y: 0.5, w: 0.4, h: 0.2}`
lies inside the unit square, yet a single `nw` resize step with
`dx = -0.7, dy = 0` passes the `newW > 0.01` guard, clamps only `x`, and
produces `{x: 0, y: 0.5, w: 1.1, h: 0.2}` with `x + w = 1.1 > 1`:
`handleMouseMove` does not preserve the `[0,1]×[0,1]` invariant. -/
theorem dragStep_nw_escapes_unit_square :
    rectInBounds ⟨3/10, 1/2, 2/5, 1/5⟩
    ∧ dragStep .nw ⟨3/10, 1/2, 2/5, 1/5⟩ (-7/10) 0 = ⟨0, 1/2, 11/10, 1/5⟩
    ∧ ¬ rectInBounds (dragStep .nw ⟨3/10, 1/2, 2/5, 1/5⟩ (-7/10) 0) := by
  have h1 : resizeBlockNW .nw ⟨3/10, 1/2, 2/5, 1/5⟩ (-7/10) 0 = ⟨0, 1/2, 11/10, 1/5⟩ := by
    norm_num [resizeBlockNW, reduceCtorEq]
  have h2 : resizeBlockNE .nw ⟨0, 1/2, 11/10, 1/5⟩ (-7/10) 0 = ⟨0, 1/2, 11/10, 1/5⟩ := by
    norm_num [resizeBlockNE, reduceCtorEq]
    intro h
    exact absurd h (by decide)
  have h3 : resizeBlockSW .nw ⟨0, 1/2, 11/10, 1/5⟩ (-7/10) 0 = ⟨0, 1/2, 11/10, 1/5⟩ := by
    norm_num [resizeBlockSW, reduceCtorEq]
    intro h
    exact absurd h (by decide)
  have h4 : resizeBlockSE .nw ⟨0, 1/2, 11/10, 1/5⟩ (-7/10) 0 = ⟨0, 1/2, 11/10, 1/5⟩ := by
    norm_num [resizeBlockSE, reduceCtorEq]
    intro h
    exact absurd h (by decide)
  have hstep : dragStep .nw ⟨3/10, 1/2, 2/5, 1/5⟩ (-7/10) 0 = ⟨0, 1/2, 11/10, 1/5⟩ := by
    show resizeBlockSE .nw
        (resizeBlockSW .nw (resizeBlockNE .nw
          (resizeBlockNW .nw ⟨3/10, 1/2, 2/5, 1/5⟩ (-7/10) 0) (-7/10) 0) (-7/10) 0) (-7/10) 0
      = ⟨0, 1/2, 11/10, 1/5⟩
    rw [h1, h2, h3, h4]
  refine ⟨by norm_num [rectInBounds], hstep, ?_⟩
  rw [hstep]
  norm_num [rectInBounds]

/-- C6 (refuting evaluation): with `sampleRate = 1` and `fps = 2` we get
`samplesPerFrame = 0`, so every analysis window holds zero samples; the
window RMS is `Math.sqrt(0/0) = NaN` (`none`), and both produced frames
carry volume `NaN`, not `0`. -/
theorem analyzeAudioBuffer_empty_window_nan :
    (∀ k, (⟨⟨1, [0]⟩, 2, 0.01, 0.1, fun q => q⟩ : AnalyzerParams).frameRms k = none)
    ∧ (analyzeAudioBuffer ⟨1, [0]⟩ 2 0.01 0.1 (fun q => q)).map VolumeFrame.volume
        = [none, none]
    ∧ (analyzeAudioBuffer ⟨1, [0]⟩ 2 0.01 0.1 (fun q => q)).map VolumeFrame.volume
        ≠ [some 0, some 0] := by
  have hspf : (⟨⟨1, [0]⟩, 2, 0.01, 0.1, fun q => q⟩ : AnalyzerParams).samplesPerFrame = 0 := by
    show (⌊(1 : ℚ) * (1 / 2)⌋).toNat = 0
    rw [show ⌊(1 : ℚ) * (1 / 2)⌋ = 0 by rw [Int.floor_eq_iff] <;> norm_num]
    rfl
  have hrms : ∀ k, (⟨⟨1, [0]⟩, 2, 0.01, 0.1, fun q => q⟩ : AnalyzerParams).frameRms k = none := by
    intro k
    simp [AnalyzerParams.frameRms, hspf]
  have hnum : (⟨⟨1, [0]⟩, 2, 0.01, 0.1, fun q => q⟩ : AnalyzerParams).numFrames = 2 := by
    show (⌈(((1 : ℕ) : ℚ) / 1) * 2⌉).toNat = 2
    rw [show ⌈(((1 : ℕ) : ℚ) / 1) * 2⌉ = 2 by rw [Int.ceil_eq_iff] <;> norm_num]
    rfl
  have hframes : analyzeAudioBuffer ⟨1, [0]⟩ 2 0.01 0.1 (fun q => q)
      = [analyzerFrameAt ⟨⟨1, [0]⟩, 2, 0.01, 0.1, fun q => q⟩ 0,
         analyzerFrameAt ⟨⟨1, [0]⟩, 2, 0.01, 0.1, fun q => q⟩ 1] := by
    show (List.range
        (⟨⟨1, [0]⟩, 2, 0.01, 0.1, fun q => q⟩ : AnalyzerParams).numFrames).map _ = _
    rw [hnum]
    rfl
  have hvol : ∀ k, (analyzerFrameAt ⟨⟨1, [0]⟩, 2, 0.01, 0.1, fun q => q⟩ k).volume = none := by
    intro k
    show ((analyzerStep _ (analyzerStateAt _ k) k).1).volume = none
    rw [analyzerStep_fst_volume, hrms k, jsSmooth_nan_right]
  have hmap : (analyzeAudioBuffer ⟨1, [0]⟩ 2 0.01 0.1 (fun q => q)).map VolumeFrame.volume
      = [none, none] := by
    rw [hframes]
    simp [hvol 0, hvol 1]
  refine ⟨hrms, hmap, ?_⟩
  rw [hmap]
  simp

/-- C1: for a positive frame rate the analyzer produces exactly
`ceil(duration * fps)` frames; the `k`-th timestamp is `k / fps`, so the
timestamps start at `0`, are strictly increasing and evenly spaced at
interval `1 / fps`; and an empty (zero-length) audio signal yields an
empty sequence. -/
theorem analyzeAudioBuffer_frame_grid (audioBuffer : AudioBuffer)
    (fps threshold releaseTime : ℚ) (sqrtFn : ℚ → ℚ) (hfps : 0 < fps) :
    (analyzeAudioBuffer audioBuffer fps threshold releaseTime sqrtFn).length
        = ⌈audioBuffer.duration * fps⌉.toNat
    ∧ (∀ k (hk : k < (analyzeAudioBuffer audioBuffer fps threshold releaseTime sqrtFn).length),
        ((analyzeAudioBuffer audioBuffer fps threshold releaseTime sqrtFn).get ⟨k, hk⟩).time
          = (k : ℚ) / fps)
    ∧ (∀ i j (hi : i < (analyzeAudioBuffer audioBuffer fps threshold releaseTime sqrtFn).length)
        (hj : j < (analyzeAudioBuffer audioBuffer fps threshold releaseTime sqrtFn).length),
        i < j →
        ((analyzeAudioBuffer audioBuffer fps threshold releaseTime sqrtFn).get ⟨i, hi⟩).time
          < ((analyzeAudioBuffer audioBuffer fps threshold releaseTime sqrtFn).get ⟨j, hj⟩).time)
    ∧ (∀ k (hk : k + 1 < (analyzeAudioBuffer audioBuffer fps threshold releaseTime sqrtFn).length),
        ((analyzeAudioBuffer audioBuffer fps threshold releaseTime sqrtFn).get ⟨k + 1, hk⟩).time
          - ((analyzeAudioBuffer audioBuffer fps threshold releaseTime sqrtFn).get
              ⟨k, Nat.lt_of_succ_lt hk⟩).time = 1 / fps)
    ∧ (∀ h0 : 0 < (analyzeAudioBuffer audioBuffer fps threshold releaseTime sqrtFn).length,
        ((analyzeAudioBuffer audioBuffer fps threshold releaseTime sqrtFn).get ⟨0, h0⟩).time = 0)
    ∧ (audioBuffer.channelData = [] →
        analyzeAudioBuffer audioBuffer fps threshold releaseTime sqrtFn = []) := by
  have htime : ∀ k (hk : k <
      (analyzeAudioBuffer audioBuffer fps threshold releaseTime sqrtFn).length),
      ((analyzeAudioBuffer audioBuffer fps threshold releaseTime sqrtFn).get ⟨k, hk⟩).time
        = (k : ℚ) / fps := by
    intro k hk
    rw [analyzeAudioBuffer_get]
    show ((analyzerStep _ (analyzerStateAt _ k) k).1).time = _
    rw [analyzerStep_fst_time]
    show (k : ℚ) * (1 / fps) = (k : ℚ) / fps
    rw [mul_one_div]
  refine ⟨?_, htime, ?_, ?_, ?_, ?_⟩
  · rw [analyzeAudioBuffer_length]
    rfl
  · intro i j hi hj hij
    rw [htime i hi, htime j hj, div_lt_div_iff hfps hfps]
    exact mul_lt_mul_of_pos_right (by exact_mod_cast hij) hfps
  · intro k hk
    rw [htime (k + 1) hk, htime k (Nat.lt_of_succ_lt hk), div_sub_div_same]
    congr 1
    push_cast
    ring
  · intro h0
    rw [htime 0 h0]
    simp
  · intro hnil
    have hdur : audioBuffer.duration = 0 := by
      simp [AudioBuffer.duration, hnil]
    simp [analyzeAudioBuffer, AnalyzerParams.numFrames, hdur]

/-- C1 witness: a 1-second buffer of ten zero samples at sample rate 10,
analyzed at 2 fps, yields exactly `ceil(1 * 2) = 2` frames. -/
theorem analyzeAudioBuffer_frame_grid_witness :
    (analyzeAudioBuffer ⟨10, List.replicate 10 0⟩ 2 0.01 0.1 (fun q => q)).length = 2 := by
  have h := (analyzeAudioBuffer_frame_grid ⟨10, List.replicate 10 0⟩ 2 0.01 0.1 (fun q => q)
    (by norm_num)).1
  rw [h]
  have hdur : (⟨10, List.replicate 10 0⟩ : AudioBuffer).duration = 1 := by
    norm_num [AudioBuffer.duration]
  rw [hdur]
  rw [show ⌈(1 : ℚ) * 2⌉ = 2 by norm_num]
  rfl

/-- The release-window invariant: once iteration `i` sees its smoothed
volume above the threshold, every later iteration within `releaseFrames`
frames of `i` emits an open mouth, keeps the open flag set, and keeps
`lastOpenTime` at least `i`. -/
theorem analyzer_open_run (p : AnalyzerParams) (i : ℕ)
    (hopen : jsGtQ ((analyzerFrameAt p i).volume) p.threshold = true) :
    ∀ d : ℕ, (d : ℤ) < p.releaseFrames →
      (analyzerFrameAt p (i + d)).mouthState = .opened
      ∧ (analyzerStateAt p (i + d + 1)).isOpen = true
      ∧ (i : ℤ) ≤ (analyzerStateAt p (i + d + 1)).lastOpenTime := by
  have hopen' : jsGtQ (jsSmooth (analyzerStateAt p i).smoothing (p.frameRms i))
      p.threshold = true := by
    rw [← analyzerStep_fst_volume]
    exact hopen
  intro d
  induction d with
  | zero =>
    intro _
    have hstep := analyzerStep_of_gt p (analyzerStateAt p i) i hopen'
    refine ⟨?_, ?_, ?_⟩
    · have he : analyzerFrameAt p (i + 0) = (analyzerStep p (analyzerStateAt p i) i).1 := rfl
      rw [he, hstep]
    · have he : analyzerStateAt p (i + 0 + 1)
          = (analyzerStep p (analyzerStateAt p i) i).2 := rfl
      rw [he, hstep]
    · have he : analyzerStateAt p (i + 0 + 1)
          = (analyzerStep p (analyzerStateAt p i) i).2 := rfl
      rw [he, hstep]
  | succ d ih =>
    intro hd1
    have hd : (d : ℤ) < p.releaseFrames := by
      push_cast at hd1 ⊢
      omega
    obtain ⟨_, hIsOpen, hLast⟩ := ih hd
    by_cases hc : jsGtQ (jsSmooth (analyzerStateAt p (i + d + 1)).smoothing
        (p.frameRms (i + d + 1))) p.threshold = true
    · have hstep := analyzerStep_of_gt p (analyzerStateAt p (i + d + 1)) (i + d + 1) hc
      refine ⟨?_, ?_, ?_⟩
      · have he : analyzerFrameAt p (i + (d + 1))
            = (analyzerStep p (analyzerStateAt p (i + d + 1)) (i + d + 1)).1 := rfl
        rw [he, hstep]
      · have he : analyzerStateAt p (i + (d + 1) + 1)
            = (analyzerStep p (analyzerStateAt p (i + d + 1)) (i + d + 1)).2 := rfl
        rw [he, hstep]
      · have he : analyzerStateAt p (i + (d + 1) + 1)
            = (analyzerStep p (analyzerStateAt p (i + d + 1)) (i + d + 1)).2 := rfl
        rw [he, hstep]
        show (i : ℤ) ≤ ((i + d + 1 : ℕ) : ℤ)
        push_cast
        omega
    · have hc' : jsGtQ (jsSmooth (analyzerStateAt p (i + d + 1)).smoothing
          (p.frameRms (i + d + 1))) p.threshold = false := by
        simpa using hc
      have hrel : ((i + d + 1 : ℕ) : ℤ) - (analyzerStateAt p (i + d + 1)).lastOpenTime
          < p.releaseFrames := by
        push_cast at hd1 ⊢
        omega
      have hstep := analyzerStep_of_release p (analyzerStateAt p (i + d + 1)) (i + d + 1)
        hc' hIsOpen hrel
      refine ⟨?_, ?_, ?_⟩
      · have he : analyzerFrameAt p (i + (d + 1))
            = (analyzerStep p (analyzerStateAt p (i + d + 1)) (i + d + 1)).1 := rfl
        rw [he, hstep]
      · have he : analyzerStateAt p (i + (d + 1) + 1)
            = (analyzerStep p (analyzerStateAt p (i + d + 1)) (i + d + 1)).2 := rfl
        rw [he, hstep]
        exact hIsOpen
      · have he : analyzerStateAt p (i + (d + 1) + 1)
            = (analyzerStep p (analyzerStateAt p (i + d + 1)) (i + d + 1)).2 := rfl
        rw [he, hstep]
        exact hLast

/-- C2: hysteresis — if the smoothed loudness of frame `i` exceeds the
threshold (the stored volume is the smoothed value compared by the code),
then every produced frame `j` with `i ≤ j < i + ceil(releaseTime * fps)`
has mouthState open, even where the smoothed loudness is at or below the
threshold. -/
theorem analyzeAudioBuffer_hysteresis (audioBuffer : AudioBuffer)
    (fps threshold releaseTime : ℚ) (sqrtFn : ℚ → ℚ) (i j : ℕ)
    (hi : i < (analyzeAudioBuffer audioBuffer fps threshold releaseTime sqrtFn).length)
    (hj : j < (analyzeAudioBuffer audioBuffer fps threshold releaseTime sqrtFn).length)
    (hij : i ≤ j)
    (hwin : (j : ℤ) < (i : ℤ) + ⌈releaseTime * fps⌉)
    (hopen : jsGtQ (((analyzeAudioBuffer audioBuffer fps threshold releaseTime sqrtFn).get
        ⟨i, hi⟩).volume) threshold = true) :
    ((analyzeAudioBuffer audioBuffer fps threshold releaseTime sqrtFn).get ⟨j, hj⟩).mouthState
      = .opened := by
  rw [analyzeAudioBuffer_get] at hopen ⊢
  obtain ⟨d, rfl⟩ : ∃ d, j = i + d := ⟨j - i, (Nat.add_sub_cancel' hij).symm⟩
  refine (analyzer_open_run ⟨audioBuffer, fps, threshold, releaseTime, sqrtFn⟩ i hopen d ?_).1
  show (d : ℤ) < ⌈releaseTime * fps⌉
  push_cast at hwin
  omega

/-- C2 witness: two seconds of silence at sample rate 1, fps 1, threshold
1/4, releaseTime 2, with the abstract square root returning 1: frame 0's
smoothed volume is 0.3 > 1/4, so frame 1 (inside the release window of
`ceil(2 * 1) = 2` frames) is still open. -/
theorem analyzeAudioBuffer_hysteresis_witness :
    ((analyzeAudioBuffer ⟨1, [0, 0]⟩ 1 (1/4) 2 (fun _ => 1))[1]?).map VolumeFrame.mouthState
      = some .opened := by
  have hlen : (analyzeAudioBuffer ⟨1, [0, 0]⟩ 1 (1/4) 2 (fun _ => 1)).length = 2 := by
    rw [analyzeAudioBuffer_length]
    show (⌈(((2 : ℕ) : ℚ) / 1) * 1⌉).toNat = 2
    rw [show ⌈(((2 : ℕ) : ℚ) / 1) * 1⌉ = 2 by rw [Int.ceil_eq_iff] <;> norm_num]
    rfl
  have h0 : 0 < (analyzeAudioBuffer ⟨1, [0, 0]⟩ 1 (1/4) 2 (fun _ => 1)).length := by
    rw [hlen]
    norm_num
  have h1 : 1 < (analyzeAudioBuffer ⟨1, [0, 0]⟩ 1 (1/4) 2 (fun _ => 1)).length := by
    rw [hlen]
    norm_num
  have hspf : (⟨⟨1, [0, 0]⟩, 1, 1/4, 2, fun _ => 1⟩ : AnalyzerParams).samplesPerFrame = 1 := by
    show (⌊(1 : ℚ) * (1 / 1)⌋).toNat = 1
    rw [show ⌊(1 : ℚ) * (1 / 1)⌋ = 1 by rw [Int.floor_eq_iff] <;> norm_num]
    rfl
  have hrms0 : (⟨⟨1, [0, 0]⟩, 1, 1/4, 2, fun _ => 1⟩ : AnalyzerParams).frameRms 0
      = some 1 := by
    simp only [AnalyzerParams.frameRms, hspf]
    norm_num
  have hvol0 : ((analyzeAudioBuffer ⟨1, [0, 0]⟩ 1 (1/4) 2 (fun _ => 1)).get ⟨0, h0⟩).volume
      = some (3/10) := by
    rw [analyzeAudioBuffer_get]
    show ((analyzerStep _ (analyzerStateAt _ 0) 0).1).volume = _
    rw [analyzerStep_fst_volume]
    rw [show (analyzerStateAt (⟨⟨1, [0, 0]⟩, 1, 1/4, 2, fun _ => 1⟩ : AnalyzerParams)
      0).smoothing = some 0 from rfl, hrms0]
    show some ((0 : ℚ) * 0.7 + 1 * 0.3) = some (3/10)
    norm_num
  have hopen : jsGtQ (((analyzeAudioBuffer ⟨1, [0, 0]⟩ 1 (1/4) 2 (fun _ => 1)).get
      ⟨0, h0⟩).volume) (1/4) = true := by
    rw [hvol0]
    show decide ((1 : ℚ)/4 < 3/10) = true
    rw [decide_eq_true_eq]
    norm_num
  have hwin : ((1 : ℕ) : ℤ) < ((0 : ℕ) : ℤ) + ⌈(2 : ℚ) * 1⌉ := by
    rw [show ⌈(2 : ℚ) * 1⌉ = 2 by norm_num]
    norm_num
  have hmain := analyzeAudioBuffer_hysteresis ⟨1, [0, 0]⟩ 1 (1/4) 2 (fun _ => 1) 0 1
    h0 h1 (by norm_num) hwin hopen
  rw [List.getElem?_eq_getElem h1]
  rw [List.get_eq_getElem] at hmain
  simp only [Option.map_some']
  exact congrArg some hmain

/-- C4 counterexample: with no user selection and an analysis recommending
eyes-open frame 16 on a 16-frame (4×4) sheet, the (eyes open, mouth open)
combination resolves to 16, which is not a valid index in
`[0, frameCount) = [0, 16)`. -/
theorem resolveFrameIndex_out_of_range :
    resolveFrameIndex (resolvedSelection none (some ⟨16, 0, 0, 0⟩)) .opened .opened = 16
    ∧ ¬ (resolveFrameIndex (resolvedSelection none (some ⟨16, 0, 0, 0⟩)) .opened .opened
        < 16) := by
  refine ⟨rfl, by decide⟩

/-- Lookup with the `?? 0` fallback stays in range when the stored value
does and the range is non-empty. -/
theorem optIndexInRange_getD (frameCount : ℤ) (v : Option ℤ)
    (hv : optIndexInRange frameCount v) (hpos : 0 < frameCount) :
    0 ≤ v.getD 0 ∧ v.getD 0 < frameCount := by
  cases v with
  | none => exact ⟨le_refl 0, hpos⟩
  | some i => simpa using hv i rfl

/-- C4 (amended): frame resolution is total, and whenever every
user-selected and AI-recommended index lies in `[0, frameCount)` (with
`frameCount > 0`) the resolved index lies in `[0, frameCount)` for all six
(eye, mouth) combinations; with no analysis and no user selections every
combination resolves to 0 through the fallback chain
user selection → AI recommendation → 0. -/
theorem resolveFrameIndex_range_of_valid_inputs
    (frameCount : ℤ) (selectedFrames : Option ExpressionFrameSelection)
    (spriteAnalysis : Option SpriteSheetAnalysis) (eye : EyeState) (mouth : MouthState)
    (hpos : 0 < frameCount)
    (hsel : ∀ sel, selectedFrames = some sel → selectionInRange frameCount sel)
    (hana : ∀ a, spriteAnalysis = some a → analysisInRange frameCount a) :
    (0 ≤ resolveFrameIndex (resolvedSelection selectedFrames spriteAnalysis) eye mouth
      ∧ resolveFrameIndex (resolvedSelection selectedFrames spriteAnalysis) eye mouth
          < frameCount)
    ∧ resolveFrameIndex (resolvedSelection none none) eye mouth = 0 := by
  constructor
  · cases selectedFrames with
    | some sel =>
      obtain ⟨h1, h2, h3, h4, h5, h6⟩ := hsel sel rfl
      cases eye <;> cases mouth <;>
        simp only [resolvedSelection, resolveFrameIndex] <;>
        first
          | exact optIndexInRange_getD frameCount _ h1 hpos
          | exact optIndexInRange_getD frameCount _ h2 hpos
          | exact optIndexInRange_getD frameCount _ h3 hpos
          | exact optIndexInRange_getD frameCount _ h4 hpos
          | exact optIndexInRange_getD frameCount _ h5 hpos
          | exact optIndexInRange_getD frameCount _ h6 hpos
    | none =>
      cases spriteAnalysis with
      | none =>
        cases eye <;> cases mouth <;>
          simp [resolvedSelection, selectionFromAnalysis, resolveFrameIndex, jsOrInt] <;>
          omega
      | some a =>
        obtain ⟨ha1, ha2, ha3, ha4⟩ := hana a rfl
        cases eye <;> cases mouth
        · simpa [resolvedSelection, selectionFromAnalysis, resolveFrameIndex] using ha1
        · simpa [resolvedSelection, selectionFromAnalysis, resolveFrameIndex] using ha3
        · simpa [resolvedSelection, selectionFromAnalysis, resolveFrameIndex] using ha1
        · simpa [resolvedSelection, selectionFromAnalysis, resolveFrameIndex] using ha2
        · simpa [resolvedSelection, selectionFromAnalysis, resolveFrameIndex] using ha3
        · by_cases hz : a.recommendedEyesClosedFrame = 0
          · simpa [resolvedSelection, selectionFromAnalysis, resolveFrameIndex, jsOrInt, hz]
              using ha4
          · simpa [resolvedSelection, selectionFromAnalysis, resolveFrameIndex, jsOrInt, hz]
              using ha2
  · cases eye <;> cases mouth <;>
      simp [resolvedSelection, selectionFromAnalysis, resolveFrameIndex, jsOrInt]

/-- C4 witness: with no user selection and no analysis, the
(eyes open, mouth open) combination resolves to 0, a valid index on a
16-frame sheet. -/
theorem resolveFrameIndex_range_witness :
    (0 ≤ resolveFrameIndex (resolvedSelection none none) .opened .opened
      ∧ resolveFrameIndex (resolvedSelection none none) .opened .opened < 16)
    ∧ resolveFrameIndex (resolvedSelection none none) .opened .opened = 0 :=
  resolveFrameIndex_range_of_valid_inputs 16 none none .opened .opened (by norm_num)
    (fun _ h => Option.noConfusion h) (fun _ h => Option.noConfusion h)

/-- C8: `analyzeSpriteSheet` throws whenever the response is unusable — a
missing parts array throws the no-data error, a response whose parts all
lack (truthy) text throws the no-data error, a first truthy text part that
fails to parse as JSON throws the parse error, and every successful result
comes from an actual successful parse of some text, so a malformed
response is never silently replaced by a default analysis. -/
theorem analyzeSpriteSheet_rejects_malformed
    (parseFn : String → Option SpriteSheetAnalysis) (parts : List ResponsePart) :
    (analyzeSpriteSheetResult parseFn none = .error "No analysis data in the response.")
    ∧ (parts.all (fun part => !(jsTruthyText part.text)) = true →
        analyzeSpriteSheetResult parseFn (some parts)
          = .error "No analysis data in the response.")
    ∧ (∀ pre part post, parts = pre ++ part :: post →
        pre.all (fun q => !(jsTruthyText q.text)) = true →
        jsTruthyText part.text = true →
        parseFn (part.text.getD "") = none →
        analyzeSpriteSheetResult parseFn (some parts)
          = .error "Failed to parse analysis response as JSON")
    ∧ (∀ analysis, analyzeSpriteSheetResult parseFn (some parts) = .ok analysis →
        ∃ t, parseFn t = some analysis) := by
  refine ⟨rfl, ?_, ?_, ?_⟩
  · show parts.all _ = true → extractAnalysisFromParts parseFn parts = _
    induction parts with
    | nil =>
      intro _
      rfl
    | cons part rest ih =>
      intro hall
      simp only [List.all_cons, Bool.and_eq_true, Bool.not_eq_true'] at hall
      simp only [extractAnalysisFromParts, hall.1]
      exact ih hall.2
  · intro pre part post heq hpre htruthy hparse
    subst heq
    show extractAnalysisFromParts parseFn (pre ++ part :: post) = _
    induction pre with
    | nil =>
      simp only [List.nil_append, extractAnalysisFromParts, htruthy, if_true, hparse]
    | cons q qre ih =>
      simp only [List.all_cons, Bool.and_eq_true, Bool.not_eq_true'] at hpre
      simp only [List.cons_append, extractAnalysisFromParts, hpre.1]
      simp only [Bool.false_eq_true, if_false]
      exact ih hpre.2
  · intro analysis
    show extractAnalysisFromParts parseFn parts = .ok analysis → _
    induction parts with
    | nil =>
      intro h
      simp [extractAnalysisFromParts] at h
    | cons part rest ih =>
      intro h
      by_cases ht : jsTruthyText part.text = true
      · rw [extractAnalysisFromParts, if_pos ht] at h
        cases hp : parseFn (part.text.getD "") with
        | some a =>
          rw [hp] at h
          refine ⟨part.text.getD "", ?_⟩
          rw [hp]
          simpa using h
        | none =>
          rw [hp] at h
          simp at h
      · have ht' : jsTruthyText part.text = false := by
          simpa using ht
        rw [extractAnalysisFromParts, if_neg (by simp [ht'])] at h
        exact ih h

/-- C8 witness: a response whose only part holds unparseable text throws
the parse error, and a response whose only part has no text throws the
no-data error (here with a parser that rejects everything). -/
theorem analyzeSpriteSheet_rejects_malformed_witness :
    analyzeSpriteSheetResult (fun _ => none) (some [⟨some "oops"⟩])
      = .error "Failed to parse analysis response as JSON"
    ∧ analyzeSpriteSheetResult (fun _ => none) (some [⟨none⟩])
      = .error "No analysis data in the response." :=
  ⟨(analyzeSpriteSheet_rejects_malformed (fun _ => none) [⟨some "oops"⟩]).2.2.1
      [] ⟨some "oops"⟩ [] rfl rfl (by decide) rfl,
   (analyzeSpriteSheet_rejects_malformed (fun _ => none) [⟨none⟩]).2.1 (by decide)⟩

end BananaSprite
